import Mathlib

/-!
Verification development for a small CRM program (`src/main.py`): an SQLite-backed
command-line tool with five tables (user, product, support, customer, ticket),
SHA-224 password login, per-entity insert operations, full-table scans and CSV
exports.  The Python functions are shallowly embedded as pure Lean functions over
an explicit `Store` value; fallible behaviour (sqlite errors, Python TypeError,
pandas ValueError) is returned through `Except`.
-/

namespace CRM

/-! ## SHA-224 (as used by `hashlib.sha224(password.encode()).hexdigest()`) -/

def M32 : Nat := 4294967296

def rotr32 (x n : Nat) : Nat :=
  ((x >>> n) ||| (x <<< (32 - n))) % M32

def not32 (x : Nat) : Nat := x ^^^ 4294967295

def ch32 (x y z : Nat) : Nat := (x &&& y) ^^^ (not32 x &&& z)

def maj32 (x y z : Nat) : Nat := (x &&& y) ^^^ (x &&& z) ^^^ (y &&& z)

def bigSigma0 (x : Nat) : Nat := rotr32 x 2 ^^^ rotr32 x 13 ^^^ rotr32 x 22

def bigSigma1 (x : Nat) : Nat := rotr32 x 6 ^^^ rotr32 x 11 ^^^ rotr32 x 25

def smallSigma0 (x : Nat) : Nat := rotr32 x 7 ^^^ rotr32 x 18 ^^^ (x >>> 3)

def smallSigma1 (x : Nat) : Nat := rotr32 x 17 ^^^ rotr32 x 19 ^^^ (x >>> 10)

/-- The eight SHA-224 initial state words of FIPS 180-4, written in decimal. -/
def H224 : List Nat :=
  [3238371032, 914150663, 812702999, 4144912697,
   4290775857, 1750603025, 1694076839, 3204075428]

/-- The 64 SHA-256 round constants of FIPS 180-4, written in decimal. -/
def K256 : List Nat :=
  [1116352408, 1899447441, 3049323471, 3921009573, 961987163, 1508970993,
   2453635748, 2870763221, 3624381080, 310598401, 607225278, 1426881987,
   1925078388, 2162078206, 2614888103, 3248222580, 3835390401, 4022224774,
   264347078, 604807628, 770255983, 1249150122, 1555081692, 1996064986,
   2554220882, 2821834349, 2952996808, 3210313671, 3336571891, 3584528711,
   113926993, 338241895, 666307205, 773529912, 1294757372, 1396182291,
   1695183700, 1986661051, 2177026350, 2456956037, 2730485921, 2820302411,
   3259730800, 3345764771, 3516065817, 3600352804, 4094571909, 275423344,
   430227734, 506948616, 659060556, 883997877, 958139571, 1322822218,
   1537002063, 1747873779, 1955562222, 2024104815, 2227730452, 2361852424,
   2428436474, 2756734187, 3204031479, 3329325298]

/-- UTF-8 bytes of one character (`str.encode()` in Python). -/
def utf8Bytes (c : Char) : List Nat :=
  let n := c.toNat
  if n < 128 then [n]
  else if n < 2048 then [192 + n / 64, 128 + n % 64]
  else if n < 65536 then [224 + n / 4096, 128 + (n / 64) % 64, 128 + n % 64]
  else [240 + n / 262144, 128 + (n / 4096) % 64, 128 + (n / 64) % 64, 128 + n % 64]

def strBytes (s : String) : List Nat :=
  s.data.foldr (fun c acc => utf8Bytes c ++ acc) []

/-- SHA padding: append 0x80, zero bytes, and the 64-bit big-endian bit length. -/
def padMessage (bytes : List Nat) : List Nat :=
  let len := bytes.length
  let bitLen := 8 * len
  let zeros := (64 - (len + 9) % 64) % 64
  bytes ++ [128] ++ List.replicate zeros 0 ++
    (List.range 8).map (fun i => (bitLen >>> (8 * (7 - i))) % 256)

/-- Group bytes into big-endian 32-bit words. -/
def toWords (bytes : List Nat) : List Nat :=
  (List.range (bytes.length / 4)).map (fun i =>
    bytes.getD (4 * i) 0 * 16777216 + bytes.getD (4 * i + 1) 0 * 65536 +
    bytes.getD (4 * i + 2) 0 * 256 + bytes.getD (4 * i + 3) 0)

/-- Extend the 16 message words of a block to the 64-entry schedule. -/
def msgSchedule (w : List Nat) : List Nat :=
  (List.range 48).foldl (fun ws _ =>
    let n := ws.length
    ws ++ [(smallSigma1 (ws.getD (n - 2) 0) + ws.getD (n - 7) 0 +
            smallSigma0 (ws.getD (n - 15) 0) + ws.getD (n - 16) 0) % M32]) w

/-- One round of the SHA-256 compression function on state [a,b,c,d,e,f,g,h]. -/
def compressStep (k w : Nat) (st : List Nat) : List Nat :=
  match st with
  | [a, b, c, d, e, f, g, h] =>
    let t1 := (h + bigSigma1 e + ch32 e f g + k + w) % M32
    let t2 := (bigSigma0 a + maj32 a b c) % M32
    [(t1 + t2) % M32, a, b, c, (d + t1) % M32, e, f, g]
  | _ => st

def compressBlock (hs block : List Nat) : List Nat :=
  let ws := msgSchedule block
  let final := (K256.zip ws).foldl (fun acc kw => compressStep kw.1 kw.2 acc) hs
  (hs.zip final).map (fun p => (p.1 + p.2) % M32)

def hexDigit (n : Nat) : Char :=
  if n < 10 then Char.ofNat (48 + n) else Char.ofNat (87 + n)

def word32ToHex (w : Nat) : List Char :=
  (List.range 8).map (fun i => hexDigit ((w >>> (4 * (7 - i))) % 16))

/-- Hex digest of SHA-224 of a string: 224 bits = the first 7 of 8 state words. -/
def sha224hex (s : String) : String :=
  let words := toWords (padMessage (strBytes s))
  let hs := (List.range (words.length / 16)).foldl
    (fun hs i => compressBlock hs ((words.drop (16 * i)).take 16)) H224
  String.mk ((hs.take 7).foldr (fun w acc => word32ToHex w ++ acc) [])

/-! ## Storage classes and column affinity

SQLite stores each cell as NULL, INTEGER, REAL, TEXT or BLOB, and a column
with INTEGER affinity (the `customer` columns contact_no INT, purchase_hist
INTEGER, ticket_hist INTEGER) converts a bound TEXT value that is a
well-formed numeric literal into a number before storing it.  The program
binds plain strings, so what a scan returns depends on this conversion. -/

/-- A stored SQLite value.  A REAL cell records the source literal; no
theorem below depends on the double it denotes. -/
inductive SqlValue where
  | int (n : Int)
  | real (literal : String)
  | text (s : String)
  | null
deriving DecidableEq, Repr

/-- `sqlite3Isspace`: space, tab, newline, vertical tab, form feed,
carriage return. -/
def isSqlSpace (c : Char) : Bool :=
  c == ' ' || c == '\t' || c == '\n' || c == '\x0b' || c == '\x0c' || c == '\r'

def isDigitChar (c : Char) : Bool := 48 ≤ c.toNat && c.toNat ≤ 57

/-- Strip the whitespace SQLite ignores around a numeric literal. -/
def trimSqlSpace (s : List Char) : List Char :=
  ((s.dropWhile isSqlSpace).reverse.dropWhile isSqlSpace).reverse

def digitsVal (ds : List Char) : Nat :=
  ds.foldl (fun a c => 10 * a + (c.toNat - 48)) 0

/-- A well-formed integer literal — optional sign, then digits only — and
its value. -/
def parseIntegerLiteral (s : List Char) : Option Int :=
  match s with
  | [] => none
  | c :: rest =>
    let signed := c == '-' || c == '+'
    let ds := if signed then rest else c :: rest
    if !ds.isEmpty && ds.all isDigitChar then
      let v : Int := Int.ofNat (digitsVal ds)
      some (if c == '-' then -v else v)
    else none

/-- The optional exponent part of a real literal: empty, or `e`/`E`, an
optional sign, and at least one digit. -/
def expoOk (s : List Char) : Bool :=
  match s with
  | [] => true
  | c :: rest =>
    (c == 'e' || c == 'E') &&
      (let rest2 := match rest with
        | d :: rest3 => if d == '-' || d == '+' then rest3 else d :: rest3
        | [] => rest
      !rest2.isEmpty && rest2.all isDigitChar)

/-- A well-formed real literal: optional sign, digits with an optional
fractional part (at least one digit on one side of the point), optional
exponent. -/
def isRealLiteral (s : List Char) : Bool :=
  let s1 := match s with
    | c :: rest => if c == '-' || c == '+' then rest else c :: rest
    | [] => s
  let intPart := s1.takeWhile isDigitChar
  let s2 := s1.drop intPart.length
  match s2 with
  | [] => !intPart.isEmpty
  | '.' :: s3 =>
    let fracPart := s3.takeWhile isDigitChar
    let s4 := s3.drop fracPart.length
    (!intPart.isEmpty || !fracPart.isEmpty) && expoOk s4
  | _ => !intPart.isEmpty && expoOk s2

/-- SQLite NUMERIC/INTEGER column affinity applied to a bound TEXT value
(`applyNumericAffinity` in the engine): a well-formed integer literal,
possibly surrounded by whitespace, whose value fits in a signed 64-bit
integer is stored as that INTEGER; any other well-formed numeric literal (a
real literal, or an integer overflowing 64 bits) is stored as a REAL; every
other string is stored as TEXT unchanged. -/
def applyNumericAffinity (s : String) : SqlValue :=
  let t := trimSqlSpace s.data
  match parseIntegerLiteral t with
  | some n =>
    if -9223372036854775808 ≤ n ∧ n ≤ 9223372036854775807 then .int n
    else .real (String.mk t)
  | none =>
    if isRealLiteral t then .real (String.mk t) else .text s

/-- How a Python f-string prints a fetched cell. -/
def sqlValueStr (v : SqlValue) : String :=
  match v with
  | .int n => toString n
  | .real lit => lit
  | .text s => s
  | .null => "None"

/-- How pandas `to_csv` renders a fetched cell (NULL becomes empty). -/
def sqlValueCsv (v : SqlValue) : String :=
  match v with
  | .int n => toString n
  | .real lit => lit
  | .text s => s
  | .null => ""

/-! ## Data model

One structure per table row, fields named after the schema columns in
`create_table`.  Columns that every insert statement in the program leaves
unset (and that are nullable in the schema) are `Option String`;
auto-increment integer primary keys are `Nat`.  The three INTEGER-affinity
`customer` columns hold `SqlValue` — the bound string after
`applyNumericAffinity` — because the round-trip claim depends on the stored
representation.  The other populated columns are TEXT-affinity or are
DATE/BOOLEAN columns whose stored representation no claim below depends on;
they are kept as the bound strings. -/

structure UserRow where
  id : Nat
  username : String
  hashed_password : String
deriving DecidableEq, Repr

structure ProductRow where
  project_id : Nat
  project_type : String
  project_date : String
  project_rating : String
deriving DecidableEq, Repr

structure SupportRow where
  ticket_id : Option String
  project_id : Option String
  ticket_date : Option String
  ticket_status : Option String
  ticket_manager : String
deriving DecidableEq, Repr

structure CustomerRow where
  customer_id : Nat
  contact_no : SqlValue
  purchase_hist : SqlValue
  ticket_hist : SqlValue
  payment_type : String
deriving DecidableEq, Repr

structure TicketRow where
  customer_id : Option String
  ticket_id : Nat
  project_id : Option String
  ticket_date : String
  ticket_status : String
  ticket_reason : String
deriving DecidableEq, Repr

/-- The persistent database file `crm.db`.  A table that has not been created
yet is `none`; `CREATE TABLE IF NOT EXISTS` turns it into `some rows`. -/
structure Store where
  user : Option (List UserRow)
  product : Option (List ProductRow)
  support : Option (List SupportRow)
  customer : Option (List CustomerRow)
  ticket : Option (List TicketRow)
deriving DecidableEq, Repr

/-- Python-level failures the embedded operations can raise. -/
inductive PyError where
  /-- sqlite3.OperationalError: no such table. -/
  | operationalError
  /-- sqlite3.IntegrityError: UNIQUE constraint failed. -/
  | constraintViolation
  /-- TypeError: missing required positional arguments. -/
  | typeError
  /-- pandas ValueError: length mismatch when assigning `df.columns`. -/
  | valueError
deriving DecidableEq, Repr

/-- Outcome of one operation: the returned value or the exception it raised,
the persistent store after the call (only committed work survives), and
whether the function executed `conn.close()` before returning or raising. -/
structure Step (α : Type) where
  result : Except PyError α
  store : Store
  connClosed : Bool

def stepOk {α : Type} (s : Step α) : Bool :=
  match s.result with
  | .ok _ => true
  | .error _ => false

/-- Next AUTOINCREMENT id: one more than the largest id ever used (no row is
ever deleted, so that is the largest id currently present). -/
def nextId (ids : List Nat) : Nat := ids.foldl max 0 + 1

/-! ## Schema manager (`create_table`) -/

/-- `create_table`: five `CREATE TABLE IF NOT EXISTS` statements, then
commit and close.  An existing table keeps its rows; a missing one is
created empty. -/
def create_table (st : Store) : Store :=
  { user := some (st.user.getD []),
    product := some (st.product.getD []),
    support := some (st.support.getD []),
    customer := some (st.customer.getD []),
    ticket := some (st.ticket.getD []) }

def emptyStore : Store := ⟨none, none, none, none, none⟩

/-- A freshly initialised database: `create_table` on an empty file. -/
def emptyDb : Store := create_table emptyStore

/-! ## Authentication and inserts -/

/-- The WHERE clause of `login`: `username = ? AND hashed_password = ?`. -/
def loginMatch (username hashed : String) (r : UserRow) : Bool :=
  r.username == username && r.hashed_password == hashed

/-- `login`: hash the password with SHA-224, SELECT a row matching both
username and hashed_password, close, and return whether a row was found. -/
def login (username password : String) (st : Store) : Step Bool :=
  match st.user with
  | none => ⟨.error .operationalError, st, false⟩
  | some users =>
    let hashed_password := sha224hex password
    let rows := users.find? (loginMatch username hashed_password)
    ⟨.ok rows.isSome, st, true⟩

/-- `add_user`: INSERT (username, sha224 password) into user; the UNIQUE
constraint on username makes the INSERT raise IntegrityError when a row with
that username already exists (the commit and close are then never reached). -/
def add_user (username password : String) (st : Store) : Step String :=
  match st.user with
  | none => ⟨.error .operationalError, st, false⟩
  | some users =>
    let hashed_password := sha224hex password
    if users.any (fun r => r.username == username) then
      ⟨.error .constraintViolation, st, false⟩
    else
      ⟨.ok "User added successfully.",
       { st with user := some (users ++
           [⟨nextId (users.map (fun r => r.id)), username, hashed_password⟩]) },
       true⟩

/-- `add_customer`: INSERT the four given strings, commit, close, print.
The engine applies INTEGER-column affinity to the values bound into
contact_no, purchase_hist and ticket_hist; payment_type is a TEXT column
and keeps the bound string. -/
def add_customer (contact_no purchase_hist ticket_hist payment_type : String)
    (st : Store) : Step String :=
  match st.customer with
  | none => ⟨.error .operationalError, st, false⟩
  | some rows =>
    ⟨.ok "Customer added successfully.",
     { st with customer := some (rows ++
         [⟨nextId (rows.map (fun r => r.customer_id)),
           applyNumericAffinity contact_no, applyNumericAffinity purchase_hist,
           applyNumericAffinity ticket_hist, payment_type⟩]) },
     true⟩

/-- `add_product`: INSERT the three given strings and commit.  The source has
no `conn.close()` in this function, so the connection is left open. -/
def add_product (project_type project_date project_rating : String)
    (st : Store) : Step String :=
  match st.product with
  | none => ⟨.error .operationalError, st, false⟩
  | some rows =>
    ⟨.ok "Product added successfully.",
     { st with product := some (rows ++
         [⟨nextId (rows.map (fun r => r.project_id)),
           project_type, project_date, project_rating⟩]) },
     false⟩

/-- `add_support`: INSERT (ticket_manager, ticket_date, ticket_status) into
support, leaving ticket_id and project_id NULL, and commit.  No `conn.close()`
appears in the source, so the connection is left open. -/
def add_support (ticket_manager ticket_date ticket_status : String)
    (st : Store) : Step String :=
  match st.support with
  | none => ⟨.error .operationalError, st, false⟩
  | some rows =>
    ⟨.ok "Support added successfully.",
     { st with support := some (rows ++
         [⟨none, none, some ticket_date, some ticket_status, ticket_manager⟩]) },
     false⟩

/-- `add_ticket`: executes the ticket INSERT on the cursor, then calls
`add_support()` with no arguments.  `add_support` requires three positional
arguments, so this call raises TypeError; `conn.commit()` is never reached,
the pending insert is discarded when the connection is dropped, and
`conn.close()` never runs. -/
def add_ticket (ticket_date ticket_status ticket_reason : String)
    (st : Store) : Step String :=
  match st.ticket with
  | none => ⟨.error .operationalError, st, false⟩
  | some rows =>
    let _pending := rows ++
      [⟨none, nextId (rows.map (fun r => r.ticket_id)), none,
        ticket_date, ticket_status, ticket_reason⟩]
    ⟨.error .typeError, st, false⟩

/-! ## Reads and exports

`fetch_data(table_name)` is a decorator whose wrapper connects, runs
`SELECT * FROM table`, closes the connection and hands the rows to the
decorated function.  The embedding gives one fetch function per table (the
table name is fixed at decoration time) and each decorated function composes
with it. -/

def fetch_all_customer (st : Store) : Step (List CustomerRow) :=
  match st.customer with
  | none => ⟨.error .operationalError, st, false⟩
  | some rows => ⟨.ok rows, st, true⟩

def fetch_all_product (st : Store) : Step (List ProductRow) :=
  match st.product with
  | none => ⟨.error .operationalError, st, false⟩
  | some rows => ⟨.ok rows, st, true⟩

def fetch_all_support (st : Store) : Step (List SupportRow) :=
  match st.support with
  | none => ⟨.error .operationalError, st, false⟩
  | some rows => ⟨.ok rows, st, true⟩

def customerLine (r : CustomerRow) : String :=
  "customer_id: " ++ toString r.customer_id ++
  ", contact_no: " ++ sqlValueStr r.contact_no ++
  ", purchase_hist: " ++ sqlValueStr r.purchase_hist ++
  ", ticket_hist: " ++ sqlValueStr r.ticket_hist ++
  ", payment_type: " ++ r.payment_type ++ " "

def productLine (r : ProductRow) : String :=
  "project_id: " ++ toString r.project_id ++ ", project_type: " ++ r.project_type ++
  ", project_date: " ++ r.project_date ++ ", project_rating: " ++ r.project_rating

def nullToStr (c : Option String) : String := c.getD ""

def supportLine (r : SupportRow) : String :=
  "ticket_id: " ++ nullToStr r.ticket_id ++ ", project_type: " ++ nullToStr r.project_id ++
  ", ticket_date: " ++ nullToStr r.ticket_date ++ ", ticket_status: " ++ nullToStr r.ticket_status ++
  ", ticket_manager: " ++ r.ticket_manager

/-- `print_customer`: fetch all customer rows; print one line per row, or a
"No customer found." message when the table is empty. -/
def print_customer (st : Store) : Step (List String) :=
  let f := fetch_all_customer st
  match f.result with
  | .error e => ⟨.error e, f.store, f.connClosed⟩
  | .ok rows =>
    if rows.isEmpty then ⟨.ok ["No customer found."], f.store, f.connClosed⟩
    else ⟨.ok (rows.map customerLine), f.store, f.connClosed⟩

def print_product (st : Store) : Step (List String) :=
  let f := fetch_all_product st
  match f.result with
  | .error e => ⟨.error e, f.store, f.connClosed⟩
  | .ok rows =>
    if rows.isEmpty then ⟨.ok ["No product found."], f.store, f.connClosed⟩
    else ⟨.ok (rows.map productLine), f.store, f.connClosed⟩

def print_support (st : Store) : Step (List String) :=
  let f := fetch_all_support st
  match f.result with
  | .error e => ⟨.error e, f.store, f.connClosed⟩
  | .ok rows =>
    if rows.isEmpty then ⟨.ok ["No support found."], f.store, f.connClosed⟩
    else ⟨.ok (rows.map supportLine), f.store, f.connClosed⟩

/-- A CSV file as pandas `to_csv(..., index=False)` writes it: one header row
followed by one row of cells per data row. -/
structure CsvFile where
  header : List String
  rows : List (List String)
deriving DecidableEq, Repr

/-- Assigning `df.columns = names` on a DataFrame of the given width raises
ValueError unless the lengths agree. -/
def set_columns (names : List String) (width : Nat) : Except PyError (List String) :=
  if names.length = width then .ok names else .error .valueError

def customerRowCells (r : CustomerRow) : List String :=
  [toString r.customer_id, sqlValueCsv r.contact_no, sqlValueCsv r.purchase_hist,
   sqlValueCsv r.ticket_hist, r.payment_type]

def productRowCells (r : ProductRow) : List String :=
  [toString r.project_id, r.project_type, r.project_date, r.project_rating]

def supportRowCells (r : SupportRow) : List String :=
  [nullToStr r.ticket_id, nullToStr r.project_id, nullToStr r.ticket_date,
   nullToStr r.ticket_status, r.ticket_manager]

/-- The column-name list assigned in `customer_to_csv`. -/
def customerCsvColumns : List String :=
  ["customer_id", "contact_no", "purchase_hist", "ticket_hist", "payment_type"]

/-- The column-name list assigned in `product_to_csv`. -/
def productCsvColumns : List String :=
  ["project_id", "project_type", "project_date", "project_rating"]

/-- The column-name list assigned in `support_to_csv` — four names, although
a support row has five columns. -/
def supportCsvColumns : List String :=
  ["ticket_id", "project_type", "ticket_date", "ticket_status"]

/-- `customer_to_csv`: fetch all customer rows; with no rows print a no-data
message and write nothing; otherwise build a DataFrame, set its columns and
write `customer_data.csv`.  Returns the file written (if any) and the message
printed. -/
def customer_to_csv (st : Store) : Step (Option CsvFile × String) :=
  let f := fetch_all_customer st
  match f.result with
  | .error e => ⟨.error e, f.store, f.connClosed⟩
  | .ok rows =>
    match rows with
    | [] => ⟨.ok (none, "No customer data to export."), f.store, f.connClosed⟩
    | r :: _ =>
      match set_columns customerCsvColumns (customerRowCells r).length with
      | .error e => ⟨.error e, f.store, f.connClosed⟩
      | .ok header =>
        ⟨.ok (some ⟨header, rows.map customerRowCells⟩,
              "Customer data successsfully exported to customer_data.csv"),
         f.store, f.connClosed⟩

def product_to_csv (st : Store) : Step (Option CsvFile × String) :=
  let f := fetch_all_product st
  match f.result with
  | .error e => ⟨.error e, f.store, f.connClosed⟩
  | .ok rows =>
    match rows with
    | [] => ⟨.ok (none, "No product data to export."), f.store, f.connClosed⟩
    | r :: _ =>
      match set_columns productCsvColumns (productRowCells r).length with
      | .error e => ⟨.error e, f.store, f.connClosed⟩
      | .ok header =>
        ⟨.ok (some ⟨header, rows.map productRowCells⟩,
              "Product data successsfully exported to product_data.csv"),
         f.store, f.connClosed⟩

def support_to_csv (st : Store) : Step (Option CsvFile × String) :=
  let f := fetch_all_support st
  match f.result with
  | .error e => ⟨.error e, f.store, f.connClosed⟩
  | .ok rows =>
    match rows with
    | [] => ⟨.ok (none, "No support data to export."), f.store, f.connClosed⟩
    | r :: _ =>
      match set_columns supportCsvColumns (supportRowCells r).length with
      | .error e => ⟨.error e, f.store, f.connClosed⟩
      | .ok header =>
        ⟨.ok (some ⟨header, rows.map supportRowCells⟩,
              "Support data successsfully exported to support_data.csv"),
         f.store, f.connClosed⟩

/-- `view_customer_given_payment_type`: print the argument, SELECT customers
whose payment_type equals it exactly, close, and print the rows (or a
"No customer found." message). -/
def view_customer_given_payment_type (payment_type : String) (st : Store) :
    Step (List String) :=
  match st.customer with
  | none => ⟨.error .operationalError, st, false⟩
  | some rows =>
    let matching := rows.filter (fun r => r.payment_type == payment_type)
    if matching.isEmpty then
      ⟨.ok [payment_type, "No customer found."], st, true⟩
    else
      ⟨.ok (payment_type :: matching.map customerLine), st, true⟩

/-! ## Concrete stores used as evaluation points -/

/-- The store after one `add_support("alice", "2024-01-03", "open")` on a
fresh database. -/
def supportStore1 : Store := (add_support "alice" "2024-01-03" "open" emptyDb).store

/-- The store after one `add_user("alice", "secret123")` on a fresh database. -/
def aliceDb : Store := (add_user "alice" "secret123" emptyDb).store

/-! ## Claims -/

/-- C7: `create_table` is idempotent — running it a second time yields exactly
the same store as running it once, and after one run the five relations all
exist. -/
theorem create_table_idempotent (st : Store) :
    create_table (create_table st) = create_table st
    ∧ (create_table st).user.isSome = true
    ∧ (create_table st).product.isSome = true
    ∧ (create_table st).support.isSome = true
    ∧ (create_table st).customer.isSome = true
    ∧ (create_table st).ticket.isSome = true := by
  refine ⟨?_, rfl, rfl, rfl, rfl, rfl⟩
  simp [create_table]

/-- C8: exporting an empty customer table writes no file, reports the
"No customer data to export." message, raises no error, and leaves the store
unchanged. -/
theorem customer_to_csv_empty (st : Store) (h : st.customer = some []) :
    customer_to_csv st = ⟨.ok (none, "No customer data to export."), st, true⟩ := by
  simp [customer_to_csv, fetch_all_customer, h]

/-- Witness for C8 at the freshly initialised database. -/
theorem customer_to_csv_empty_witness :
    emptyDb.customer = some []
    ∧ customer_to_csv emptyDb
        = ⟨.ok (none, "No customer data to export."), emptyDb, true⟩ :=
  ⟨rfl, customer_to_csv_empty emptyDb rfl⟩

/-- C9: whenever `add_ticket` raises, the persistent ticket store is
unchanged — the INSERT executed on the connection is never committed, so no
ticket row becomes visible. -/
theorem add_ticket_error_preserves_store (d s r : String) (st : Store)
    (e : PyError) (_h : (add_ticket d s r st).result = .error e) :
    (add_ticket d s r st).store = st := by
  rcases ht : st.ticket with _ | rows <;> simp [add_ticket, ht]

/-- Witness for C9: on a fresh database `add_ticket` raises TypeError and the
store is untouched. -/
theorem add_ticket_error_preserves_store_witness :
    (add_ticket "2024-05-01" "open" "slow response" emptyDb).result
        = .error PyError.typeError
    ∧ (add_ticket "2024-05-01" "open" "slow response" emptyDb).store = emptyDb :=
  ⟨rfl, add_ticket_error_preserves_store "2024-05-01" "open" "slow response"
      emptyDb PyError.typeError rfl⟩

/-- C2 (evaluation at the failing input): `add_ticket` does not report
success — the parameterless `add_support()` call raises TypeError before the
commit, so the call errors out and the store, including the ticket table, is
left unchanged. -/
theorem add_ticket_raises_typeError :
    add_ticket "2024-01-02" "open" "screen broken" emptyDb
      = ⟨.error PyError.typeError, emptyDb, false⟩ := rfl

/-- C5 (evaluation at the failing input): on a non-empty support table the
export raises — `support_to_csv` assigns four column names to five-column
rows, a pandas ValueError — and writes no file. -/
theorem support_to_csv_raises_valueError :
    supportStore1.support
        = some [⟨none, none, some "2024-01-03", some "open", "alice"⟩]
    ∧ support_to_csv supportStore1
        = ⟨.error PyError.valueError, supportStore1, true⟩ :=
  ⟨rfl, rfl⟩

/-- C6 (counterexample): `add_product` returns successfully with its
connection still open — the source never calls `conn.close()` there — so not
every operation releases its connection before returning. -/
theorem add_product_returns_with_conn_open :
    (add_product "hardware" "2024-02-01" "5" emptyDb).result
        = .ok "Product added successfully."
    ∧ (add_product "hardware" "2024-02-01" "5" emptyDb).connClosed = false :=
  ⟨rfl, rfl⟩

/-- C3: a second `add_user` with an existing username fails with the UNIQUE
constraint violation and leaves the store — in particular the user row
count — unchanged. -/
theorem add_user_duplicate_rejected (u p2 : String) (st : Store)
    (us : List UserRow) (hu : st.user = some us)
    (hex : ∃ r ∈ us, r.username = u) :
    (add_user u p2 st).result = .error PyError.constraintViolation
    ∧ (add_user u p2 st).store = st
    ∧ (add_user u p2 st).store.user.map List.length = st.user.map List.length := by
  obtain ⟨r, hr, hru⟩ := hex
  have hany : us.any (fun r => r.username == u) = true := by
    simp only [List.any_eq_true]
    exact ⟨r, hr, by simp [hru]⟩
  refine ⟨?_, ?_, ?_⟩ <;> simp [add_user, hu, hany]

/-- Witness for C3: adding "alice" twice — the second call fails with the
constraint violation and the single-row user table is unchanged. -/
theorem add_user_duplicate_rejected_witness :
    aliceDb.user = some [⟨1, "alice", sha224hex "secret123"⟩]
    ∧ (add_user "alice" "otherpw" aliceDb).result
        = .error PyError.constraintViolation
    ∧ (add_user "alice" "otherpw" aliceDb).store = aliceDb := by
  have h := add_user_duplicate_rejected "alice" "otherpw" aliceDb
      [⟨1, "alice", sha224hex "secret123"⟩] rfl ⟨⟨1, "alice", sha224hex "secret123"⟩, by simp, rfl⟩
  exact ⟨rfl, h.1, h.2.1⟩

/-- C10: every read path — `login`, the fetch-based print and CSV-export
wrappers, and `view_customer_given_payment_type` — leaves the persistent
store unchanged. -/
theorem read_ops_preserve_store (u p pt : String) (st : Store) :
    (login u p st).store = st
    ∧ (print_customer st).store = st
    ∧ (customer_to_csv st).store = st
    ∧ (print_product st).store = st
    ∧ (product_to_csv st).store = st
    ∧ (print_support st).store = st
    ∧ (support_to_csv st).store = st
    ∧ (view_customer_given_payment_type pt st).store = st := by
  refine ⟨?_, ?_, ?_, ?_, ?_, ?_, ?_, ?_⟩
  · rcases h : st.user with _ | us <;> simp [login, h]
  · rcases h : st.customer with _ | cs <;>
      simp [print_customer, fetch_all_customer, h] <;> split <;> rfl
  · rcases h : st.customer with _ | (_ | ⟨c, cs⟩) <;>
      simp [customer_to_csv, fetch_all_customer, h, set_columns,
        customerCsvColumns, customerRowCells]
  · rcases h : st.product with _ | ps <;>
      simp [print_product, fetch_all_product, h] <;> split <;> rfl
  · rcases h : st.product with _ | (_ | ⟨q, ps⟩) <;>
      simp [product_to_csv, fetch_all_product, h, set_columns,
        productCsvColumns, productRowCells]
  · rcases h : st.support with _ | ss <;>
      simp [print_support, fetch_all_support, h] <;> split <;> rfl
  · rcases h : st.support with _ | (_ | ⟨w, ss⟩) <;>
      simp [support_to_csv, fetch_all_support, h, set_columns,
        supportCsvColumns, supportRowCells]
  · rcases h : st.customer with _ | cs <;>
      simp [view_customer_given_payment_type, h] <;> split <;> rfl

/-- C6 (amended): every operation that both runs a statement and returns
normally closes its connection first, except `add_product` and `add_support`,
which return with the connection still open, and `add_ticket`, which raises
with the connection still open. -/
theorem conn_release_amended (u p cn ph th py pt a b c m d s r : String)
    (st : Store) :
    (stepOk (login u p st) = true → (login u p st).connClosed = true)
    ∧ (stepOk (add_user u p st) = true → (add_user u p st).connClosed = true)
    ∧ (stepOk (add_customer cn ph th py st) = true →
        (add_customer cn ph th py st).connClosed = true)
    ∧ (stepOk (print_customer st) = true → (print_customer st).connClosed = true)
    ∧ (stepOk (customer_to_csv st) = true → (customer_to_csv st).connClosed = true)
    ∧ (stepOk (print_product st) = true → (print_product st).connClosed = true)
    ∧ (stepOk (product_to_csv st) = true → (product_to_csv st).connClosed = true)
    ∧ (stepOk (print_support st) = true → (print_support st).connClosed = true)
    ∧ (stepOk (support_to_csv st) = true → (support_to_csv st).connClosed = true)
    ∧ (stepOk (view_customer_given_payment_type pt st) = true →
        (view_customer_given_payment_type pt st).connClosed = true)
    ∧ (add_product a b c st).connClosed = false
    ∧ (add_support m d s st).connClosed = false
    ∧ (add_ticket d s r st).connClosed = false := by
  refine ⟨?_, ?_, ?_, ?_, ?_, ?_, ?_, ?_, ?_, ?_, ?_, ?_, ?_⟩
  · rcases h : st.user with _ | us <;> simp [login, stepOk, h]
  · rcases h : st.user with _ | us
    · simp [add_user, stepOk, h]
    · simp only [add_user, h]
      split <;> simp [stepOk]
  · rcases h : st.customer with _ | cs <;> simp [add_customer, stepOk, h]
  · rcases h : st.customer with _ | cs
    · simp [print_customer, fetch_all_customer, stepOk, h]
    · simp only [print_customer, fetch_all_customer, h]
      split <;> simp [stepOk]
  · rcases h : st.customer with _ | (_ | ⟨cr, cs⟩) <;>
      simp [customer_to_csv, fetch_all_customer, stepOk, h, set_columns,
        customerCsvColumns, customerRowCells]
  · rcases h : st.product with _ | ps
    · simp [print_product, fetch_all_product, stepOk, h]
    · simp only [print_product, fetch_all_product, h]
      split <;> simp [stepOk]
  · rcases h : st.product with _ | (_ | ⟨pr, ps⟩) <;>
      simp [product_to_csv, fetch_all_product, stepOk, h, set_columns,
        productCsvColumns, productRowCells]
  · rcases h : st.support with _ | ss
    · simp [print_support, fetch_all_support, stepOk, h]
    · simp only [print_support, fetch_all_support, h]
      split <;> simp [stepOk]
  · rcases h : st.support with _ | (_ | ⟨sr, ss⟩) <;>
      simp [support_to_csv, fetch_all_support, stepOk, h, set_columns,
        supportCsvColumns, supportRowCells]
  · rcases h : st.customer with _ | cs
    · simp [view_customer_given_payment_type, stepOk, h]
    · simp only [view_customer_given_payment_type, h]
      split <;> simp [stepOk]
  · rcases h : st.product with _ | ps <;> simp [add_product, h]
  · rcases h : st.support with _ | ss <;> simp [add_support, h]
  · rcases h : st.ticket with _ | ts <;> simp [add_ticket, h]

/-- Witness for C6 (amended) on a freshly initialised database. -/
theorem conn_release_amended_witness :
    (login "u1" "p1" emptyDb).connClosed = true
    ∧ (add_user "u1" "p1" emptyDb).connClosed = true
    ∧ (add_customer "1" "2" "3" "4" emptyDb).connClosed = true
    ∧ (print_customer emptyDb).connClosed = true
    ∧ (customer_to_csv emptyDb).connClosed = true
    ∧ (print_product emptyDb).connClosed = true
    ∧ (product_to_csv emptyDb).connClosed = true
    ∧ (print_support emptyDb).connClosed = true
    ∧ (support_to_csv emptyDb).connClosed = true
    ∧ (view_customer_given_payment_type "visa" emptyDb).connClosed = true
    ∧ (add_product "a" "b" "c" emptyDb).connClosed = false
    ∧ (add_support "m" "d" "s" emptyDb).connClosed = false
    ∧ (add_ticket "d" "s" "r" emptyDb).connClosed = false := by
  have h := conn_release_amended "u1" "p1" "1" "2" "3" "4" "visa" "a" "b" "c"
      "m" "d" "s" "r" emptyDb
  exact ⟨h.1 rfl, h.2.1 rfl, h.2.2.1 rfl, h.2.2.2.1 rfl, h.2.2.2.2.1 rfl,
    h.2.2.2.2.2.1 rfl, h.2.2.2.2.2.2.1 rfl, h.2.2.2.2.2.2.2.1 rfl,
    h.2.2.2.2.2.2.2.2.1 rfl, h.2.2.2.2.2.2.2.2.2.1 rfl,
    h.2.2.2.2.2.2.2.2.2.2.1, h.2.2.2.2.2.2.2.2.2.2.2.1,
    h.2.2.2.2.2.2.2.2.2.2.2.2⟩

/-! ## Login / add_user contract (C1) -/

lemma loginMatch_false_of_username_ne (a h : String) (r : UserRow)
    (hne : r.username ≠ a) : loginMatch a h r = false := by
  have hb : (r.username == a) = false := beq_eq_false_iff_ne.mpr hne
  simp [loginMatch, hb]

lemma find?_eq_none_of_all_username_ne (a h : String) (vs : List UserRow)
    (hall : ∀ r ∈ vs, r.username ≠ a) :
    vs.find? (loginMatch a h) = none := by
  rw [List.find?_eq_none]
  intro r hr
  simp [loginMatch_false_of_username_ne a h r (hall r hr)]

/-- What `login` returns on a store whose user table holds `vs`: whether the
SELECT found a row matching both username and hashed password. -/
lemma login_result (a b : String) (s : Store) (vs : List UserRow)
    (h : s.user = some vs) :
    (login a b s).result = .ok ((vs.find? (loginMatch a (sha224hex b))).isSome) := by
  simp [login, h]

lemma login_false_of_no_username (a b : String) (s : Store)
    (vs : List UserRow) (h : s.user = some vs)
    (hall : ∀ r ∈ vs, r.username ≠ a) :
    (login a b s).result = .ok false := by
  rw [login_result a b s vs h, find?_eq_none_of_all_username_ne a _ vs hall]
  rfl

/-- On a user table with pairwise-distinct usernames, the SELECT of `login`
finds a row iff exactly one row matches. -/
lemma find?_isSome_iff_countP_one (a h : String) (vs : List UserRow)
    (hpw : vs.Pairwise (fun r1 r2 => r1.username ≠ r2.username)) :
    ((vs.find? (loginMatch a h)).isSome = true
      ↔ vs.countP (loginMatch a h) = 1) := by
  induction vs with
  | nil => simp
  | cons r rest ih =>
    rw [List.pairwise_cons] at hpw
    obtain ⟨h1, h2⟩ := hpw
    by_cases hp : loginMatch a h r = true
    · have husr : r.username = a := by
        have hp' := hp
        unfold loginMatch at hp'
        rw [Bool.and_eq_true] at hp'
        exact eq_of_beq hp'.1
      have hzero : rest.countP (loginMatch a h) = 0 := by
        rw [List.countP_eq_zero]
        intro r' hr'
        have hf := loginMatch_false_of_username_ne a h r'
          (fun heq => h1 r' hr' (husr.trans heq.symm))
        simp [hf]
      rw [List.find?_cons_of_pos _ hp, List.countP_cons_of_pos _ _ hp, hzero]
      simp
    · have hp' : loginMatch a h r = false := by
        cases hb : loginMatch a h r
        · rfl
        · exact absurd hb hp
      rw [List.find?_cons_of_neg _ (by simp [hp']),
        List.countP_cons_of_neg _ _ (by simp [hp'])]
      exact ih h2

/-- C1: after `add_user(u, p)` on a store whose user table does not contain
`u`: `login(u, p)` returns true; `login(u, p')` returns false for every `p'`
whose SHA-224 digest differs from `p`'s; `login(u2, x)` returns false for
every username `u2` present in no user row; and — on any user table with
pairwise-distinct usernames, which the UNIQUE constraint guarantees —
`login` returns true iff exactly one (username, hashed_password) matching
row exists. -/
theorem login_add_user_contract (u p : String) (st : Store) (us : List UserRow)
    (hu : st.user = some us)
    (hfresh : ∀ r ∈ us, r.username ≠ u) :
    (login u p (add_user u p st).store).result = .ok true
    ∧ (∀ p', sha224hex p' ≠ sha224hex p →
        (login u p' (add_user u p st).store).result = .ok false)
    ∧ (∀ u2 x : String, ∀ vs2 : List UserRow,
        (add_user u p st).store.user = some vs2 →
        (∀ r ∈ vs2, r.username ≠ u2) →
        (login u2 x (add_user u p st).store).result = .ok false)
    ∧ (∀ a b : String, ∀ s2 : Store, ∀ vs : List UserRow,
        s2.user = some vs →
        vs.Pairwise (fun r1 r2 => r1.username ≠ r2.username) →
        ((login a b s2).result = .ok true
          ↔ vs.countP (loginMatch a (sha224hex b)) = 1)) := by
  have hany : us.any (fun r => r.username == u) = false := by
    rw [List.any_eq_false]
    intro r hr hc
    exact hfresh r hr (by simpa using hc)
  have hstore : (add_user u p st).store.user
      = some (us ++ [⟨nextId (us.map (fun r => r.id)), u, sha224hex p⟩]) := by
    simp [add_user, hu, hany]
  refine ⟨?_, ?_, ?_, ?_⟩
  · rw [login_result u p _ _ hstore, List.find?_append,
      find?_eq_none_of_all_username_ne u (sha224hex p) us hfresh,
      Option.none_or, List.find?_cons_of_pos _ (by simp [loginMatch])]
    rfl
  · intro p' hne
    have hpredf : loginMatch u (sha224hex p')
        ⟨nextId (us.map (fun r => r.id)), u, sha224hex p⟩ = false := by
      have hb : (sha224hex p == sha224hex p') = false :=
        beq_eq_false_iff_ne.mpr (fun hq => hne hq.symm)
      simp [loginMatch, hb]
    rw [login_result u p' _ _ hstore, List.find?_append,
      find?_eq_none_of_all_username_ne u (sha224hex p') us hfresh,
      Option.none_or, List.find?_cons_of_neg _ (by simp [hpredf])]
    rfl
  · intro u2 x vs2 hvs2 hall
    exact login_false_of_no_username u2 x _ vs2 hvs2 hall
  · intro a b s2 vs hvs hpw
    rw [login_result a b s2 vs hvs]
    simp only [Except.ok.injEq]
    exact find?_isSome_iff_countP_one a (sha224hex b) vs hpw

/-- Witness for C1 at the spec's concrete scenario:
`AddUser("alice", "secret123")`, then `Login("alice", "secret123")` is true,
`Login("alice", "wrong")` is false, and `Login("bob", "x")` is false. -/
theorem login_add_user_contract_witness :
    (login "alice" "secret123" aliceDb).result = .ok true
    ∧ (login "alice" "wrong" aliceDb).result = .ok false
    ∧ (login "bob" "x" aliceDb).result = .ok false := by
  have h := login_add_user_contract "alice" "secret123" emptyDb [] rfl (by simp)
  refine ⟨h.1, h.2.1 "wrong" (by decide), ?_⟩
  exact h.2.2.1 "bob" "x" [⟨1, "alice", sha224hex "secret123"⟩] rfl
    (by intro r hr; simp only [List.mem_singleton] at hr; subst hr; decide)

end CRM
